import Mathlib

/-!
Shallow embedding of `src/server.py` (gmail-mcp-server): credential
resolution, base64url message codec, tool handlers and their result
envelopes.  Python strings are `String` / `List Char`, bytes are
`List Nat` (each < 256), dicts are association lists, `None` is `none`,
and a raised exception is the `.error` side of `Except PyErr`.
The remote Gmail API and the HTTP backend are oracles passed in as
function parameters; handlers that issue network calls also return the
list of calls they made, so that "no network call" claims are statable.
-/

/-- Python truthiness of an optional string: `None` and the empty string
are falsy (`if not s`, `s or t`). -/
def truthyO (o : Option String) : Bool :=
  match o with
  | none => false
  | some s => s ≠ ""

/-- Python `a or b` on optional strings: `a` if truthy, else `b`. -/
def pyOrO (a b : Option String) : Option String :=
  if truthyO a then a else b

/-- Lookup in the effective source, from line 41 / line 204 of server.py:
`source = env_override if env_override is not None else os.environ`
followed by `source.get(k)`. -/
def sourceGet (envOv : Option (List (String × String)))
    (osEnv : String → Option String) (k : String) : Option String :=
  match envOv with
  | some m => m.lookup k
  | none => osEnv k

/-- URL-safe base64 alphabet (RFC 4648 §5), as used by Python's
`base64.urlsafe_b64encode`. -/
def b64UrlAlphabet : List Char :=
  ['A', 'B', 'C', 'D', 'E', 'F', 'G', 'H', 'I', 'J', 'K', 'L', 'M',
   'N', 'O', 'P', 'Q', 'R', 'S', 'T', 'U', 'V', 'W', 'X', 'Y', 'Z',
   'a', 'b', 'c', 'd', 'e', 'f', 'g', 'h', 'i', 'j', 'k', 'l', 'm',
   'n', 'o', 'p', 'q', 'r', 's', 't', 'u', 'v', 'w', 'x', 'y', 'z',
   '0', '1', '2', '3', '4', '5', '6', '7', '8', '9', '-', '_']

/-- Character for a 6-bit value. -/
def b64urlChar (v : Nat) : Char := b64UrlAlphabet.getD v '?'

/-- Value of a base64 character under `urlsafe_b64decode`: the url-safe
alphabet, plus `+`/`/` which Python's translate step also accepts. -/
def b64CharVal? (c : Char) : Option Nat :=
  match (List.range 64).find? (fun v => b64urlChar v = c) with
  | some v => some v
  | none => if c = '+' then some 62 else if c = '/' then some 63 else none

/-- Model of Python `base64.urlsafe_b64encode` on a byte sequence
(binascii.b2a_base64 without trailing newline, url-safe alphabet):
3-byte groups become 4 alphabet characters; a final group of 1 or 2
bytes is padded with `==` or `=`. -/
def urlsafe_b64encode : List Nat → List Char
  | b0 :: b1 :: b2 :: rest =>
      b64urlChar (b0 / 4) :: b64urlChar (b0 % 4 * 16 + b1 / 16) ::
      b64urlChar (b1 % 16 * 4 + b2 / 64) :: b64urlChar (b2 % 64) ::
      urlsafe_b64encode rest
  | [b0, b1] =>
      [b64urlChar (b0 / 4), b64urlChar (b0 % 4 * 16 + b1 / 16),
       b64urlChar (b1 % 16 * 4), '=']
  | [b0] =>
      [b64urlChar (b0 / 4), b64urlChar (b0 % 4 * 16), '=', '=']
  | [] => []

/-- State machine of CPython's non-strict `binascii.a2b_base64`
(as invoked by `base64.urlsafe_b64decode`): characters outside the
alphabet are discarded; a `=` seen with at least two data characters in
the current quad, completing the quad together with the pads seen so
far, terminates decoding; at end of input a partially filled quad is an
error (`Invalid base64-encoded string` / `Incorrect padding`), modelled
as `none`. -/
def a2bGo (quadPos leftchar pads : Nat) (out : List Nat) :
    List Char → Option (List Nat)
  | [] => if quadPos = 0 then some out.reverse else none
  | c :: rest =>
    if c = '=' then
      if 2 ≤ quadPos then
        if 4 ≤ quadPos + (pads + 1) then some out.reverse
        else a2bGo quadPos leftchar (pads + 1) out rest
      else a2bGo quadPos leftchar pads out rest
    else
      match b64CharVal? c with
      | some v =>
        match quadPos with
        | 0 => a2bGo 1 v 0 out rest
        | 1 => a2bGo 2 (v % 16) 0 ((leftchar * 4 + v / 16) :: out) rest
        | 2 => a2bGo 3 (v % 4) 0 ((leftchar * 16 + v / 4) :: out) rest
        | _ => a2bGo 0 0 0 ((leftchar * 64 + v) :: out) rest
      | none => a2bGo quadPos leftchar pads out rest

/-- Model of Python `base64.urlsafe_b64decode`; a raised
`binascii.Error` is `none`. -/
def urlsafe_b64decode (s : List Char) : Option (List Nat) :=
  a2bGo 0 0 0 [] s

/-- Python `s.rstrip(p)` for a single strip character. -/
def pyRstrip (p : Char) (s : List Char) : List Char :=
  (s.reverse.dropWhile (fun c => c = p)).reverse

/-- Re-padding step of `_b64url_decode` (server.py line 22) and of the
inline decodes at lines 141/150:
`data + "=" * ((4 - len(data) % 4) % 4)`. -/
def padTo4 (s : List Char) : List Char :=
  s ++ List.replicate ((4 - s.length % 4) % 4) '='

/-- Embeds `_b64url_decode` (server.py lines 20–23): re-pad to a
multiple of 4 with `=`, then url-safe base64 decode.  The same
expression is inlined in `get_latest_message` (lines 141 and 150). -/
def _b64url_decode (data_b64 : List Char) : Option (List Nat) :=
  urlsafe_b64decode (padTo4 data_b64)

/-- Encoding of one scalar value as UTF-8 bytes (model of Python
`str.encode('utf-8')`, per character). -/
def utf8EncodeChar (c : Char) : List Nat :=
  let n := c.toNat
  if n < 128 then [n]
  else if n < 2048 then [192 + n / 64, 128 + n % 64]
  else if n < 65536 then [224 + n / 4096, 128 + n / 64 % 64, 128 + n % 64]
  else [240 + n / 262144, 128 + n / 4096 % 64, 128 + n / 64 % 64, 128 + n % 64]

/-- UTF-8 encoding of a character sequence. -/
def utf8Encode (s : List Char) : List Nat := s.flatMap utf8EncodeChar

/-- A UTF-8 continuation byte. -/
def isUtf8Cont (b : Nat) : Bool := 128 ≤ b && b < 192

/-- Model of Python `bytes.decode("utf-8", errors="replace")`: a total
decoder in which every undecodable sequence contributes replacement
characters U+FFFD instead of raising.  (Overlong and surrogate
encodings are not singled out; no claim distinguishes them.) -/
def utf8DecodeReplace : List Nat → List Char
  | [] => []
  | b :: rest =>
    if b < 128 then Char.ofNat b :: utf8DecodeReplace rest
    else if 194 ≤ b && b ≤ 223 then
      match rest with
      | c1 :: rest2 =>
        if isUtf8Cont c1 then
          Char.ofNat ((b - 192) * 64 + (c1 - 128)) :: utf8DecodeReplace rest2
        else '�' :: utf8DecodeReplace (c1 :: rest2)
      | [] => ['�']
    else if 224 ≤ b && b ≤ 239 then
      match rest with
      | c1 :: c2 :: rest3 =>
        if isUtf8Cont c1 && isUtf8Cont c2 then
          Char.ofNat ((b - 224) * 4096 + (c1 - 128) * 64 + (c2 - 128)) ::
            utf8DecodeReplace rest3
        else '�' :: utf8DecodeReplace (c1 :: c2 :: rest3)
      | other => '�' :: utf8DecodeReplace other
    else if 240 ≤ b && b ≤ 244 then
      match rest with
      | c1 :: c2 :: c3 :: rest4 =>
        if isUtf8Cont c1 && isUtf8Cont c2 && isUtf8Cont c3 then
          Char.ofNat ((b - 240) * 262144 + (c1 - 128) * 4096 +
              (c2 - 128) * 64 + (c3 - 128)) :: utf8DecodeReplace rest4
        else '�' :: utf8DecodeReplace (c1 :: c2 :: c3 :: rest4)
      | other => '�' :: utf8DecodeReplace other
    else '�' :: utf8DecodeReplace rest

/-- A raised Python exception, carrying its `str(e)` rendering. -/
inductive PyErr where
  | runtimeError (msg : String)
  | other (msg : String)
deriving DecidableEq

/-- Rendering `str(e)` of an exception. -/
def PyErr.msg : PyErr → String
  | .runtimeError m => m
  | .other m => m

/-- JSON-like values: handler envelopes, request/response bodies. -/
inductive JVal where
  | null
  | bool (b : Bool)
  | num (n : Nat)
  | str (s : String)
  | arr (xs : List JVal)
  | obj (fields : List (String × JVal))

/-- Message of the `RuntimeError` raised at server.py line 46. -/
def credErrMsg : String :=
  "Required Google OAuth credentials not found in environment or env_override parameter"

/-- The `GoogleClient` of server.py lines 25–35: the three credential
strings wrapped for the OAuth2 refresh-token flow (session
construction itself performs no network call). -/
structure GoogleClient where
  client_id : String
  client_secret : String
  refresh_token : String
deriving DecidableEq

/-- Embeds `get_google_client` (server.py lines 37–47): read the three
credential keys from the effective source (override if provided, else
environment); raise `RuntimeError` unless all three are truthy. -/
def get_google_client (env_override : Option (List (String × String)))
    (osEnv : String → Option String) : Except PyErr GoogleClient :=
  let client_id := sourceGet env_override osEnv "CLIENT_ID"
  let client_secret := sourceGet env_override osEnv "CLIENT_SECRET"
  let refresh_token := sourceGet env_override osEnv "REFRESH_TOKEN"
  if truthyO client_id && truthyO client_secret && truthyO refresh_token then
    .ok ⟨client_id.getD "", client_secret.getD "", refresh_token.getD ""⟩
  else
    .error (.runtimeError credErrMsg)

/-- One part of a multipart payload, with the fields read by
`get_latest_message`: `p.get("mimeType")` and
`p.get("body", {}).get("data")`. -/
structure GPart where
  mimeType : Option String
  data : Option String

/-- A message payload: `payload.get("headers", [])` name/value pairs,
`payload.get("parts")`, and `payload.get("body", {}).get("data")`. -/
structure GPayload where
  headers : List (Option String × Option String)
  parts : Option (List GPart)
  bodyData : Option String

/-- A fetched message: `msg.get("payload", {})`, `msg.get("snippet")`. -/
structure GMessage where
  payload : Option GPayload
  snippet : Option String

/-- Payload default `{}` from `msg.get("payload", {})`. -/
def emptyPayload : GPayload := ⟨[], none, none⟩

/-- The remote Gmail API, as the oracle the handlers call into; each
operation may return a value or raise. -/
structure GmailOracle where
  listInbox : Except PyErr (Option (List String))
  getMsg : String → Except PyErr GMessage
  sendRaw : List Char → Except PyErr String
  modifyMsg : String → JVal → Except PyErr JVal
  labelsList : Except PyErr JVal
  labelsCreate : JVal → Except PyErr JVal

/-- Model of the `EmailMessage` construction and `msg.as_bytes()` in
`send_mail` (server.py lines 71–79): `To`, optional `Cc`/`Bcc`,
`Subject` header lines, a Content-Type declaring UTF-8 plain text, a
blank line, then the UTF-8 body.  The email library's exact folding and
transfer-encoding choices are immaterial: every claim about this value
quantifies over the resulting byte sequence. -/
def mimeSerialize (to_addr subject body : String) (cc bcc : Option String) : List Nat :=
  utf8Encode ("To: " ++ to_addr ++ "\r\n").data
  ++ (match cc with
      | some c => utf8Encode ("Cc: " ++ c ++ "\r\n").data
      | none => [])
  ++ (match bcc with
      | some b => utf8Encode ("Bcc: " ++ b ++ "\r\n").data
      | none => [])
  ++ utf8Encode ("Subject: " ++ subject ++ "\r\n").data
  ++ utf8Encode ("Content-Type: text/plain; charset=utf-8\r\n\r\n").data
  ++ utf8Encode body.data

/-- The encoded raw string of server.py line 82:
`urlsafe_b64encode(msg.as_bytes()).decode('ascii').rstrip('=')`. -/
def sendMailRaw (to_addr subject body : String) (cc bcc : Option String) : List Char :=
  pyRstrip '=' (urlsafe_b64encode (mimeSerialize to_addr subject body cc bcc))

/-- Error envelope of `send_mail` (server.py lines 104–110): content
block with the error text and `isError: True`. -/
def sendMailErrEnvelope (e : PyErr) : JVal :=
  .obj [("content",
         .arr [.obj [("type", .str "text"),
                     ("text", .str ("Error sending email: " ++ e.msg))]]),
        ("isError", .bool true)]

/-- Embeds `send_mail` (server.py lines 49–110): build and encode the
MIME message, resolve credentials, send through the API; the whole body
sits in `try`/`except`, so every raised exception becomes the error
envelope and the handler always returns a dict. -/
def send_mail (to_addr subject body : String) (cc bcc : Option String)
    (env_override : Option (List (String × String)))
    (osEnv : String → Option String) (gmail : GmailOracle) : JVal :=
  let raw := sendMailRaw to_addr subject body cc bcc
  match get_google_client env_override osEnv with
  | .error e => sendMailErrEnvelope e
  | .ok _client =>
    match gmail.sendRaw raw with
    | .error e => sendMailErrEnvelope e
    | .ok sentId =>
      .obj [("content",
             .arr [.obj [("type", .str "text"),
                         ("text", .str ("Email sent successfully. Message ID: "
                                        ++ sentId))]])]

/-- Result of `get_latest_message`: `{"found": False}` or the summary
dict of server.py lines 155–163. -/
inductive GLMResult where
  | notFound
  | found (id : String) (subject from_hdr date_hdr snippet body : Option String)
deriving DecidableEq

/-- Header dictionary lookup of server.py lines 126–129: the dict
comprehension keeps the last pair for a repeated name, and `.get`
returns its value. -/
def hdrGet (hs : List (Option String × Option String)) (k : String) :
    Option String :=
  match hs.reverse.find? (fun h => h.1 = some k) with
  | some h => h.2
  | none => none

/-- Loop of server.py lines 134–145: scan the parts for
`mimeType == "text/plain"` with truthy data; a successful decode breaks
with the decoded text; a decode failure sets the body to `""` and the
loop continues with the next part. -/
def extractFromParts : List GPart → Option String → Option String
  | [], body => body
  | p :: rest, body =>
    if p.mimeType = some "text/plain" then
      match p.data with
      | some d =>
        if d ≠ "" then
          match _b64url_decode d.data with
          | some raw => some (String.mk (utf8DecodeReplace raw))
          | none => extractFromParts rest (some "")
        else extractFromParts rest body
      | none => extractFromParts rest body
    else extractFromParts rest body

/-- Branch of server.py lines 146–153: no (truthy) parts list, so
decode the top-level `payload["body"]["data"]` if truthy. -/
def extractTopLevel (payload : GPayload) : Option String :=
  match payload.bodyData with
  | some d =>
    if d ≠ "" then
      match _b64url_decode d.data with
      | some raw => some (String.mk (utf8DecodeReplace raw))
      | none => some ""
    else none
  | none => none

/-- Python truthiness of `payload.get("parts")`: `None` and `[]` are
falsy. -/
def partsTruthy (o : Option (List GPart)) : Bool :=
  match o with
  | none => false
  | some l => !l.isEmpty

/-- Body extraction of server.py lines 132–153 (`body = None`, loop
over parts if truthy, else top-level data). -/
def extractBody (payload : GPayload) : Option String :=
  if partsTruthy payload.parts then extractFromParts (payload.parts.getD []) none
  else extractTopLevel payload

/-- Embeds `get_latest_message` (server.py lines 114–163).  There is no
`try`/`except`: a raised exception (credential resolution, list, get)
propagates as `.error`. -/
def get_latest_message (env_override : Option (List (String × String)))
    (osEnv : String → Option String) (gmail : GmailOracle) :
    Except PyErr GLMResult := do
  let _client ← get_google_client env_override osEnv
  let lst ← gmail.listInbox
  match lst.getD [] with
  | [] => return .notFound
  | msg_id :: _ =>
    let msg ← gmail.getMsg msg_id
    let payload := msg.payload.getD emptyPayload
    return .found msg_id (hdrGet payload.headers "Subject")
      (hdrGet payload.headers "From") (hdrGet payload.headers "Date")
      msg.snippet (extractBody payload)

/-- Embeds `list_labels` (server.py lines 166–171): no `try`/`except`,
raw response passthrough. -/
def list_labels (env_override : Option (List (String × String)))
    (osEnv : String → Option String) (gmail : GmailOracle) :
    Except PyErr JVal := do
  let _client ← get_google_client env_override osEnv
  gmail.labelsList

/-- Embeds `create_label` (server.py lines 174–179): no `try`/`except`,
raw response passthrough. -/
def create_label (label : JVal) (env_override : Option (List (String × String)))
    (osEnv : String → Option String) (gmail : GmailOracle) :
    Except PyErr JVal := do
  let _client ← get_google_client env_override osEnv
  gmail.labelsCreate label

/-- Embeds `modify_message_labels` (server.py lines 182–187); the
second component records the remote modify calls issued (message id and
modification body), for claims about which remote call is made. -/
def modify_message_labels (message_id : String) (mods : JVal)
    (env_override : Option (List (String × String)))
    (osEnv : String → Option String) (gmail : GmailOracle) :
    Except PyErr JVal × List (String × JVal) :=
  match get_google_client env_override osEnv with
  | .error e => (.error e, [])
  | .ok _client => (gmail.modifyMsg message_id mods, [(message_id, mods)])

/-- The modification body synthesized by `mark_read` (server.py
line 192): `{"removeLabelIds": ["UNREAD"]}`. -/
def markReadMods : JVal := .obj [("removeLabelIds", .arr [.str "UNREAD"])]

/-- Embeds `mark_read` (server.py lines 190–192): pure delegation to
`modify_message_labels` with the synthesized body. -/
def mark_read (message_id : String)
    (env_override : Option (List (String × String)))
    (osEnv : String → Option String) (gmail : GmailOracle) :
    Except PyErr JVal × List (String × JVal) :=
  modify_message_labels message_id markReadMods env_override osEnv gmail

/-- An HTTP response from the refresh backend: status code, raw text,
and the result of `resp.json()` (`none` models the raised parse
error for a non-JSON body). -/
structure HttpResp where
  status_code : Nat
  text : String
  json : Option JVal

/-- A POST issued to the backend: target URL and `x-api-token` header
value. -/
structure PostCall where
  url : String
  token : String
deriving DecidableEq

/-- Embeds `refresh_gmail_token` (server.py lines 195–224).  Base URL
and API token resolution fall back to `os.environ` even when an
override is present (lines 205–206); a missing token returns the error
dict before any network call; the POST is issued through the oracle and
its outcome mapped per the non-JSON / status ≥ 400 / success cases; a
raised exception from the POST becomes `{isError, error: str(e)}`.  The
second component records the POST calls issued. -/
def refresh_gmail_token (env_override : Option (List (String × String)))
    (osEnv : String → Option String)
    (post : PostCall → Except PyErr HttpResp) : JVal × List PostCall :=
  let source := fun k => sourceGet env_override osEnv k
  let base := (pyOrO (source "BASE_API_URL")
    (pyOrO (source "API_BASE_URL")
      (pyOrO (osEnv "BASE_API_URL") (some "http://localhost:8000")))).getD ""
  let api_token := pyOrO (source "API_TOKEN") (osEnv "API_TOKEN")
  if truthyO api_token = false then
    (.obj [("isError", .bool true),
           ("error", .str "Missing API_TOKEN in env_override or environment")], [])
  else
    let url := String.mk (pyRstrip '/' base.data) ++ "/api/connectors/gmail/refresh"
    let call : PostCall := ⟨url, api_token.getD ""⟩
    match post call with
    | .error e => (.obj [("isError", .bool true), ("error", .str e.msg)], [call])
    | .ok resp =>
      match resp.json with
      | none =>
        (.obj [("isError", .bool true),
               ("error", .str "Non-JSON response from backend"),
               ("body", .str resp.text)], [call])
      | some data =>
        if 400 ≤ resp.status_code then
          (.obj [("isError", .bool true),
                 ("status_code", .num resp.status_code),
                 ("details", data)], [call])
        else
          (.obj [("isError", .bool false), ("result", data)], [call])

/-- The non-`=` portion of the base64url encoding: what `rstrip('=')`
leaves of `urlsafe_b64encode`. -/
def b64Body : List Nat → List Char
  | b0 :: b1 :: b2 :: rest =>
      b64urlChar (b0 / 4) :: b64urlChar (b0 % 4 * 16 + b1 / 16) ::
      b64urlChar (b1 % 16 * 4 + b2 / 64) :: b64urlChar (b2 % 64) :: b64Body rest
  | [b0, b1] =>
      [b64urlChar (b0 / 4), b64urlChar (b0 % 4 * 16 + b1 / 16),
       b64urlChar (b1 % 16 * 4)]
  | [b0] => [b64urlChar (b0 / 4), b64urlChar (b0 % 4 * 16)]
  | [] => []

/-- Number of `=` padding characters `urlsafe_b64encode` appends. -/
def b64PadCount : List Nat → Nat
  | _ :: _ :: _ :: rest => b64PadCount rest
  | [_, _] => 1
  | [_] => 2
  | [] => 0

/-- A part the extraction loop attempts to decode: mimeType
`text/plain` with truthy data (spec-side notion, for claim C8). -/
def partAttempted (p : GPart) : Bool :=
  p.mimeType = some "text/plain" &&
    (match p.data with
     | some d => d ≠ ""
     | none => false)

/-- Decode of one part's data, `none` on base64 failure (spec-side
notion, for claim C8). -/
def partDecode (p : GPart) : Option String :=
  match p.data with
  | some d =>
    match _b64url_decode d.data with
    | some raw => some (String.mk (utf8DecodeReplace raw))
    | none => none
  | none => none

/-- First attempted part that decodes successfully (spec side). -/
def firstPlainSuccess : List GPart → Option String
  | [] => none
  | p :: rest =>
    if partAttempted p then
      match partDecode p with
      | some s => some s
      | none => firstPlainSuccess rest
    else firstPlainSuccess rest

/-- Whether some attempted part fails to decode (spec side). -/
def anyFailedAttempt (ps : List GPart) : Bool :=
  ps.any (fun p => partAttempted p && (partDecode p).isNone)

/-- Spec-side restatement of the body extraction, per claim C8 as it
has to be amended: the first text/plain part with truthy data that
decodes successfully wins; if attempts were made and all failed, the
body is the empty string; otherwise the top-level data (or `none`). -/
def bodySpec (payload : GPayload) : Option String :=
  if partsTruthy payload.parts then
    match firstPlainSuccess (payload.parts.getD []) with
    | some s => some s
    | none => if anyFailedAttempt (payload.parts.getD []) then some "" else none
  else extractTopLevel payload

/-- A benign Gmail oracle on which every remote operation succeeds. -/
def benignOracle : GmailOracle :=
  ⟨.ok (some ["m1"]), fun _ => .ok ⟨none, none⟩, fun _ => .ok "id1",
   fun _ _ => .ok .null, .ok .null, fun _ => .ok .null⟩

/-- A Gmail oracle on which every remote operation raises `e`. -/
def raisingOracle (e : PyErr) : GmailOracle :=
  ⟨.error e, fun _ => .error e, fun _ => .error e, fun _ _ => .error e,
   .error e, fun _ => .error e⟩

/-- Process environment holding only `API_TOKEN=envtok` (fixture for
claim C2). -/
def c2Env : String → Option String :=
  fun k => if k = "API_TOKEN" then some "envtok" else none

/-- Multipart payload whose first text/plain part has undecodable data
`"A"` and whose second decodes to `"hi"` (fixture for claim C8). -/
def cexPayload : GPayload :=
  ⟨[], some [⟨some "text/plain", some "A"⟩, ⟨some "text/plain", some "aGk"⟩],
   none⟩

/-! Theorems.  First the base64url codec facts behind claims C6/C7,
then the handler-level claims. -/

/-- Alphabet table facts: every 6-bit value decodes back to itself and
no alphabet character is the padding character. -/
theorem b64url_tbl :
    ∀ v : Fin 64,
      b64CharVal? (b64urlChar v.val) = some v.val ∧ b64urlChar v.val ≠ '=' := by
  decide

/-- Decoding an alphabet character recovers its value. -/
theorem b64CharVal_char (v : Nat) (hv : v < 64) :
    b64CharVal? (b64urlChar v) = some v :=
  (b64url_tbl ⟨v, hv⟩).1

/-- No output of `b64urlChar` is `=` (out-of-range values fall back to
the `?` default). -/
theorem b64urlChar_ne_pad (v : Nat) : b64urlChar v ≠ '=' := by
  by_cases hv : v < 64
  · exact (b64url_tbl ⟨v, hv⟩).2
  · have hlen : b64UrlAlphabet.length ≤ v := by
      simp [b64UrlAlphabet]
      omega
    simp [b64urlChar, List.getD, List.getElem?_eq_none hlen]

/-- Decoder step on a data character at quad position 0. -/
theorem a2bGo_step0 (v : Nat) (hv : v < 64) (lc pads : Nat) (out : List Nat)
    (rest : List Char) :
    a2bGo 0 lc pads out (b64urlChar v :: rest) = a2bGo 1 v 0 out rest := by
  simp [a2bGo, b64urlChar_ne_pad v, b64CharVal_char v hv]

/-- Decoder step on a data character at quad position 1. -/
theorem a2bGo_step1 (v : Nat) (hv : v < 64) (lc pads : Nat) (out : List Nat)
    (rest : List Char) :
    a2bGo 1 lc pads out (b64urlChar v :: rest)
      = a2bGo 2 (v % 16) 0 ((lc * 4 + v / 16) :: out) rest := by
  simp [a2bGo, b64urlChar_ne_pad v, b64CharVal_char v hv]

/-- Decoder step on a data character at quad position 2. -/
theorem a2bGo_step2 (v : Nat) (hv : v < 64) (lc pads : Nat) (out : List Nat)
    (rest : List Char) :
    a2bGo 2 lc pads out (b64urlChar v :: rest)
      = a2bGo 3 (v % 4) 0 ((lc * 16 + v / 4) :: out) rest := by
  simp [a2bGo, b64urlChar_ne_pad v, b64CharVal_char v hv]

/-- Decoder step on a data character at quad position 3. -/
theorem a2bGo_step3 (v : Nat) (hv : v < 64) (lc pads : Nat) (out : List Nat)
    (rest : List Char) :
    a2bGo 3 lc pads out (b64urlChar v :: rest)
      = a2bGo 0 0 0 ((lc * 64 + v) :: out) rest := by
  simp [a2bGo, b64urlChar_ne_pad v, b64CharVal_char v hv]

/-- A padding character completing the quad terminates decoding. -/
theorem a2bGo_pad_done (qp lc pads : Nat) (out : List Nat) (rest : List Char)
    (h2 : 2 ≤ qp) (h4 : 4 ≤ qp + (pads + 1)) :
    a2bGo qp lc pads out ('=' :: rest) = some out.reverse := by
  simp [a2bGo, h2, h4]

/-- A padding character not yet completing the quad is counted. -/
theorem a2bGo_pad_cont (qp lc pads : Nat) (out : List Nat) (rest : List Char)
    (h2 : 2 ≤ qp) (h4 : qp + (pads + 1) < 4) :
    a2bGo qp lc pads out ('=' :: rest) = a2bGo qp lc (pads + 1) out rest := by
  simp [a2bGo, h2, Nat.not_le.mpr h4]

/-- Decoding one encoded 3-byte group emits exactly those bytes. -/
theorem a2bGo_chunk (b0 b1 b2 : Nat) (h0 : b0 < 256) (h1 : b1 < 256)
    (h2 : b2 < 256) (out : List Nat) (rest : List Char) :
    a2bGo 0 0 0 out (b64urlChar (b0 / 4) :: b64urlChar (b0 % 4 * 16 + b1 / 16) ::
      b64urlChar (b1 % 16 * 4 + b2 / 64) :: b64urlChar (b2 % 64) :: rest)
    = a2bGo 0 0 0 (b2 :: b1 :: b0 :: out) rest := by
  rw [a2bGo_step0 _ (by omega), a2bGo_step1 _ (by omega),
      a2bGo_step2 _ (by omega), a2bGo_step3 _ (by omega)]
  have e1 : b0 / 4 * 4 + (b0 % 4 * 16 + b1 / 16) / 16 = b0 := by omega
  have e2 : (b0 % 4 * 16 + b1 / 16) % 16 * 16 + (b1 % 16 * 4 + b2 / 64) / 4
      = b1 := by omega
  have e3 : (b1 % 16 * 4 + b2 / 64) % 4 * 64 + b2 % 64 = b2 := by omega
  rw [e1, e2, e3]

/-- The decoder, run on the padded encoder output, accumulates exactly
the source bytes. -/
theorem a2bGo_encode (bs : List Nat) (h : ∀ b ∈ bs, b < 256) (out : List Nat) :
    a2bGo 0 0 0 out (urlsafe_b64encode bs) = some (out.reverse ++ bs) := by
  induction bs using urlsafe_b64encode.induct generalizing out with
  | case1 b0 b1 b2 rest ih =>
    have h0 : b0 < 256 := h b0 (by simp)
    have h1 : b1 < 256 := h b1 (by simp)
    have h2 : b2 < 256 := h b2 (by simp)
    rw [urlsafe_b64encode, a2bGo_chunk b0 b1 b2 h0 h1 h2,
        ih (fun b hb => h b (by simp [hb]))]
    simp
  | case2 b0 b1 =>
    have h0 : b0 < 256 := h b0 (by simp)
    have h1 : b1 < 256 := h b1 (by simp)
    rw [urlsafe_b64encode, a2bGo_step0 _ (by omega), a2bGo_step1 _ (by omega),
        a2bGo_step2 _ (by omega), a2bGo_pad_done _ _ _ _ _ (by omega) (by omega)]
    have e1 : b0 / 4 * 4 + (b0 % 4 * 16 + b1 / 16) / 16 = b0 := by omega
    have e2 : (b0 % 4 * 16 + b1 / 16) % 16 * 16 + b1 % 16 * 4 / 4 = b1 := by
      omega
    rw [e1, e2]
    simp
  | case3 b0 =>
    have h0 : b0 < 256 := h b0 (by simp)
    rw [urlsafe_b64encode, a2bGo_step0 _ (by omega), a2bGo_step1 _ (by omega),
        a2bGo_pad_cont _ _ _ _ _ (by omega) (by omega),
        a2bGo_pad_done _ _ _ _ _ (by omega) (by omega)]
    have e1 : b0 / 4 * 4 + b0 % 4 * 16 / 16 = b0 := by omega
    rw [e1]
    simp
  | case4 =>
    rw [urlsafe_b64encode]
    simp [a2bGo]

/-- The encoder output is its `=`-free body followed by the padding. -/
theorem encode_eq_body_pad (bs : List Nat) :
    urlsafe_b64encode bs = b64Body bs ++ List.replicate (b64PadCount bs) '=' := by
  induction bs using b64Body.induct with
  | case1 b0 b1 b2 rest ih =>
    rw [urlsafe_b64encode, b64Body, b64PadCount, ih]
    simp
  | case2 b0 b1 => rfl
  | case3 b0 => rfl
  | case4 => rfl

/-- No character of the encoder's body is the padding character. -/
theorem body_mem_ne_pad (bs : List Nat) (c : Char) (hc : c ∈ b64Body bs) :
    c ≠ '=' := by
  induction bs using b64Body.induct with
  | case1 b0 b1 b2 rest ih =>
    rw [b64Body] at hc
    simp only [List.mem_cons] at hc
    rcases hc with h | h | h | h | h
    all_goals first
      | (subst h; exact b64urlChar_ne_pad _)
      | exact ih h
  | case2 b0 b1 =>
    simp only [b64Body, List.mem_cons, List.mem_singleton, List.not_mem_nil,
      or_false] at hc
    rcases hc with h | h | h <;> (subst h; exact b64urlChar_ne_pad _)
  | case3 b0 =>
    simp only [b64Body, List.mem_cons, List.not_mem_nil, or_false] at hc
    rcases hc with h | h <;> (subst h; exact b64urlChar_ne_pad _)
  | case4 => simp [b64Body] at hc

/-- Re-padding the body to a multiple of 4 restores the exact padding
the encoder produced. -/
theorem body_len_pad (bs : List Nat) :
    (4 - (b64Body bs).length % 4) % 4 = b64PadCount bs := by
  induction bs using b64Body.induct with
  | case1 b0 b1 b2 rest ih =>
    rw [b64Body, b64PadCount, ← ih]
    simp only [List.length_cons]
    omega
  | case2 b0 b1 => rfl
  | case3 b0 => rfl
  | case4 => rfl

/-- Dropping while `p` holds skips a replicate block satisfying `p`. -/
theorem dropWhile_replicate_append (p : Char → Bool) (c : Char)
    (hp : p c = true) (k : Nat) (ys : List Char) :
    List.dropWhile p (List.replicate k c ++ ys) = List.dropWhile p ys := by
  induction k with
  | zero => simp
  | succ n ih => simp [List.replicate_succ, List.dropWhile_cons, hp, ih]

/-- Dropping while `p` holds is the identity when no element satisfies
`p` up front. -/
theorem dropWhile_of_all_false (p : Char → Bool) (xs : List Char)
    (h : ∀ x ∈ xs, p x = false) : List.dropWhile p xs = xs := by
  cases xs with
  | nil => rfl
  | cons x t => simp [List.dropWhile_cons, h x (by simp)]

/-- Stripping trailing `=` from the encoder output leaves its body. -/
theorem pyRstrip_body_pad (bs : List Nat) (k : Nat) :
    pyRstrip '=' (b64Body bs ++ List.replicate k '=') = b64Body bs := by
  unfold pyRstrip
  rw [List.reverse_append, List.reverse_replicate,
      dropWhile_replicate_append _ _ (by simp),
      dropWhile_of_all_false _ _ (fun x hx => by
        simp only [List.mem_reverse] at hx
        simp [body_mem_ne_pad bs x hx]),
      List.reverse_reverse]

/-- C6: for every byte sequence, re-padding the padding-stripped
url-safe base64 encoding to a multiple of 4 with `=` and then url-safe
base64 decoding it (`_b64url_decode`) reproduces the original bytes
exactly, including the cases needing 1 or 2 padding characters. -/
theorem b64url_roundtrip (bs : List Nat) (h : ∀ b ∈ bs, b < 256) :
    _b64url_decode (pyRstrip '=' (urlsafe_b64encode bs)) = some bs := by
  rw [encode_eq_body_pad, pyRstrip_body_pad, _b64url_decode, padTo4,
      body_len_pad, ← encode_eq_body_pad, urlsafe_b64decode]
  have := a2bGo_encode bs h []
  simpa using this

/-- Witness for C6 at a 4-byte input (2 `=` padding characters). -/
theorem b64url_roundtrip_witness :
    (∀ b ∈ [104, 105, 33, 77], b < 256) ∧
      _b64url_decode (pyRstrip '=' (urlsafe_b64encode [104, 105, 33, 77]))
        = some [104, 105, 33, 77] :=
  ⟨by decide, b64url_roundtrip [104, 105, 33, 77] (by decide)⟩

/-- C7: for every outbound message, the encoded raw string produced by
send_mail's MIME encoding step (line 82) contains no `=` character. -/
theorem send_mail_raw_no_pad (to_addr subject body : String)
    (cc bcc : Option String) : '=' ∉ sendMailRaw to_addr subject body cc bcc := by
  unfold sendMailRaw
  rw [encode_eq_body_pad, pyRstrip_body_pad]
  intro hmem
  exact body_mem_ne_pad _ '=' hmem rfl

/-- C3: with an override map, get_google_client succeeds returning the
three override values exactly when all three are present and non-empty,
and otherwise fails with the MissingCredentials RuntimeError, whatever
the environment holds. -/
theorem get_google_client_override_spec (m : List (String × String))
    (osEnv : String → Option String) :
    (∀ a b c : String, m.lookup "CLIENT_ID" = some a → a ≠ "" →
      m.lookup "CLIENT_SECRET" = some b → b ≠ "" →
      m.lookup "REFRESH_TOKEN" = some c → c ≠ "" →
      get_google_client (some m) osEnv = .ok ⟨a, b, c⟩)
    ∧ (truthyO (m.lookup "CLIENT_ID") = false ∨
        truthyO (m.lookup "CLIENT_SECRET") = false ∨
        truthyO (m.lookup "REFRESH_TOKEN") = false →
        get_google_client (some m) osEnv = .error (.runtimeError credErrMsg)) := by
  constructor
  · intro a b c ha hna hb hnb hc hnc
    unfold get_google_client sourceGet
    simp [ha, hb, hc, truthyO, hna, hnb, hnc]
  · intro hor
    unfold get_google_client sourceGet
    rcases hor with h | h | h <;> simp [h]

theorem get_google_client_override_spec_witness :
    (List.lookup "CLIENT_ID" [("CLIENT_ID", "a"), ("CLIENT_SECRET", "b"),
        ("REFRESH_TOKEN", "c")] = some "a" ∧
      get_google_client (some [("CLIENT_ID", "a"), ("CLIENT_SECRET", "b"),
        ("REFRESH_TOKEN", "c")]) (fun _ => some "z") = .ok ⟨"a", "b", "c"⟩)
    ∧ get_google_client (some [("CLIENT_ID", "a")]) (fun _ => some "z")
        = .error (.runtimeError credErrMsg) :=
  ⟨⟨rfl, (get_google_client_override_spec _ _).1 "a" "b" "c" rfl (by decide)
      rfl (by decide) rfl (by decide)⟩,
   (get_google_client_override_spec _ _).2 (Or.inr (Or.inl rfl))⟩

/-- C4: when the resolved API token is absent both from the effective
source and from the environment fallback, refresh_gmail_token returns
exactly the missing-token error dict and performs no network call. -/
theorem refresh_missing_token (envOv : Option (List (String × String)))
    (osEnv : String → Option String) (post : PostCall → Except PyErr HttpResp)
    (hs : truthyO (sourceGet envOv osEnv "API_TOKEN") = false)
    (he : truthyO (osEnv "API_TOKEN") = false) :
    refresh_gmail_token envOv osEnv post
      = (.obj [("isError", .bool true),
          ("error", .str "Missing API_TOKEN in env_override or environment")],
         []) := by
  unfold refresh_gmail_token
  simp [pyOrO, hs, he]

theorem refresh_missing_token_witness :
    truthyO (sourceGet (some []) (fun _ => none) "API_TOKEN") = false
    ∧ refresh_gmail_token (some []) (fun _ => none)
        (fun _ => .ok ⟨200, "", none⟩)
      = (.obj [("isError", .bool true),
          ("error", .str "Missing API_TOKEN in env_override or environment")],
         []) :=
  ⟨rfl, refresh_missing_token (some []) (fun _ => none) _ rfl rfl⟩

/-- C5: when the backend response parses as JSON, status < 400 yields
the success dict and status ≥ 400 the status/details error dict. -/
theorem refresh_json_status (envOv : Option (List (String × String)))
    (osEnv : String → Option String) (post : PostCall → Except PyErr HttpResp)
    (status : Nat) (text : String) (data : JVal)
    (htk : truthyO (pyOrO (sourceGet envOv osEnv "API_TOKEN")
      (osEnv "API_TOKEN")) = true)
    (hpost : ∀ c, post c = .ok ⟨status, text, some data⟩) :
    (refresh_gmail_token envOv osEnv post).1
      = if 400 ≤ status then
          .obj [("isError", .bool true), ("status_code", .num status),
                ("details", data)]
        else .obj [("isError", .bool false), ("result", data)] := by
  unfold refresh_gmail_token
  simp [htk, hpost]
  split <;> rfl

theorem refresh_json_status_witness :
    truthyO (pyOrO (sourceGet (some [("BASE_API_URL", "http://x"),
        ("API_TOKEN", "t")]) (fun _ => none) "API_TOKEN")
      ((fun (_ : String) => (none : Option String)) "API_TOKEN")) = true
    ∧ (refresh_gmail_token (some [("BASE_API_URL", "http://x"),
          ("API_TOKEN", "t")]) (fun _ => none)
        (fun _ => .ok ⟨200, "", some (.obj [("status", .str "ok")])⟩)).1
      = .obj [("isError", .bool false),
              ("result", .obj [("status", .str "ok")])] := by
  refine ⟨rfl, ?_⟩
  have h := refresh_json_status (some [("BASE_API_URL", "http://x"),
      ("API_TOKEN", "t")]) (fun _ => none)
    (fun _ => .ok ⟨200, "", some (.obj [("status", .str "ok")])⟩)
    200 "" (.obj [("status", .str "ok")]) rfl (fun _c => rfl)
  rw [if_neg (by omega)] at h
  exact h

/-- C10: a backend response that does not parse as JSON yields the
non-JSON error dict with the raw text, whatever the status code. -/
theorem refresh_non_json (envOv : Option (List (String × String)))
    (osEnv : String → Option String) (post : PostCall → Except PyErr HttpResp)
    (status : Nat) (text : String)
    (htk : truthyO (pyOrO (sourceGet envOv osEnv "API_TOKEN")
      (osEnv "API_TOKEN")) = true)
    (hpost : ∀ c, post c = .ok ⟨status, text, none⟩) :
    (refresh_gmail_token envOv osEnv post).1
      = .obj [("isError", .bool true),
              ("error", .str "Non-JSON response from backend"),
              ("body", .str text)] := by
  unfold refresh_gmail_token
  simp [htk, hpost]

theorem refresh_non_json_witness :
    truthyO (pyOrO (sourceGet (some [("API_TOKEN", "t")]) (fun _ => none)
        "API_TOKEN") ((fun (_ : String) => (none : Option String))
        "API_TOKEN")) = true
    ∧ (refresh_gmail_token (some [("API_TOKEN", "t")]) (fun _ => none)
        (fun _ => .ok ⟨500, "oops", none⟩)).1
      = .obj [("isError", .bool true),
              ("error", .str "Non-JSON response from backend"),
              ("body", .str "oops")] :=
  ⟨rfl, refresh_non_json (some [("API_TOKEN", "t")]) (fun _ => none)
    (fun _ => .ok ⟨500, "oops", none⟩) 500 "oops" rfl (fun _c => rfl)⟩

/-- C9: mark_read is pure delegation to modify_message_labels with the
synthesized body removeLabelIds=[UNREAD]: same envelope, same remote
modify call. -/
theorem mark_read_delegates (message_id : String)
    (envOv : Option (List (String × String))) (osEnv : String → Option String)
    (gmail : GmailOracle) :
    mark_read message_id envOv osEnv gmail
      = modify_message_labels message_id
          (.obj [("removeLabelIds", .arr [.str "UNREAD"])]) envOv osEnv gmail :=
  rfl

/-- C2 counterexample: with an override map lacking API_TOKEN but the
environment variable set, refresh_gmail_token falls back to the
environment token and issues the network call. -/
theorem override_env_fallback_cex :
    refresh_gmail_token (some [("BASE_API_URL", "http://x")]) c2Env
        (fun _ => .ok ⟨200, "", some .null⟩)
      = (.obj [("isError", .bool false), ("result", .null)],
         [⟨"http://x/api/connectors/gmail/refresh", "envtok"⟩]) := by
  rfl

/-- With an override present, credential resolution never reads the
environment (definitional consequence of sourceGet). -/
theorem refresh_calls_token (m : List (String × String))
    (osEnv : String → Option String) (post : PostCall → Except PyErr HttpResp)
    (tk : String) (hm : truthyO (m.lookup "API_TOKEN") = false)
    (henv : osEnv "API_TOKEN" = some tk) (hne : tk ≠ "") :
    (refresh_gmail_token (some m) osEnv post).2.map PostCall.token = [tk] := by
  unfold refresh_gmail_token
  simp only [sourceGet, pyOrO, hm, Bool.false_eq_true, if_false, henv]
  have htk : truthyO (some tk) = true := by simp [truthyO, hne]
  simp only [htk, Bool.true_eq_false, if_false]
  split
  · simp
  · split
    · simp
    · split <;> simp

/-- C2 amended: strict override precedence holds for
get_google_client's three credential lookups (the environment is never
consulted when an override is present), but refresh_gmail_token falls
back to the environment for API_TOKEN missing from the override. -/
theorem override_precedence_amended :
    (∀ (m : List (String × String)) (osEnv osEnv2 : String → Option String),
        get_google_client (some m) osEnv = get_google_client (some m) osEnv2)
    ∧ (∀ (m : List (String × String)) (osEnv : String → Option String)
        (post : PostCall → Except PyErr HttpResp) (tk : String),
        truthyO (m.lookup "API_TOKEN") = false →
        osEnv "API_TOKEN" = some tk → tk ≠ "" →
        (refresh_gmail_token (some m) osEnv post).2.map PostCall.token = [tk]) :=
  ⟨fun _ _ _ => rfl, fun m osEnv post tk hm henv hne =>
    refresh_calls_token m osEnv post tk hm henv hne⟩

theorem override_precedence_amended_witness :
    get_google_client (some [("CLIENT_ID", "a")]) (fun _ => some "z")
      = get_google_client (some [("CLIENT_ID", "a")]) (fun _ => none)
    ∧ (refresh_gmail_token (some []) c2Env
        (fun _ => .ok ⟨200, "", some .null⟩)).2.map PostCall.token = ["envtok"] :=
  ⟨override_precedence_amended.1 _ _ _,
   override_precedence_amended.2 [] c2Env _ "envtok" rfl rfl (by decide)⟩

/-- Errors from get_google_client are always the MissingCredentials
RuntimeError. -/
theorem get_google_client_error_eq (envOv : Option (List (String × String)))
    (osEnv : String → Option String) (e : PyErr)
    (h : get_google_client envOv osEnv = .error e) :
    e = .runtimeError credErrMsg := by
  simp only [get_google_client] at h
  split at h
  · exact absurd h (by simp)
  · injection h with h2
    exact h2.symm

/-- C1 amended: send_mail converts every exception (credential failure
or a raising remote call) into its error envelope, and
refresh_gmail_token returns a dict on every path by construction; the
remaining handlers have no boundary catch, and a credential failure
propagates out of them as a raised exception. -/
theorem handler_boundary_amended :
    (∀ (to_addr subject body : String) (cc bcc : Option String)
        (envOv : Option (List (String × String)))
        (osEnv : String → Option String) (e : PyErr),
        send_mail to_addr subject body cc bcc envOv osEnv (raisingOracle e)
            = sendMailErrEnvelope e
          ∨ send_mail to_addr subject body cc bcc envOv osEnv (raisingOracle e)
            = sendMailErrEnvelope (.runtimeError credErrMsg))
    ∧ (∀ (osEnv : String → Option String) (gmail : GmailOracle),
        get_latest_message (some []) osEnv gmail
          = .error (.runtimeError credErrMsg))
    ∧ (∀ (osEnv : String → Option String) (gmail : GmailOracle),
        list_labels (some []) osEnv gmail = .error (.runtimeError credErrMsg))
    ∧ (∀ (lb : JVal) (osEnv : String → Option String) (gmail : GmailOracle),
        create_label lb (some []) osEnv gmail
          = .error (.runtimeError credErrMsg))
    ∧ (∀ (mid : String) (mods : JVal) (osEnv : String → Option String)
        (gmail : GmailOracle),
        (modify_message_labels mid mods (some []) osEnv gmail).1
          = .error (.runtimeError credErrMsg))
    ∧ (∀ (mid : String) (osEnv : String → Option String)
        (gmail : GmailOracle),
        (mark_read mid (some []) osEnv gmail).1
          = .error (.runtimeError credErrMsg)) := by
  refine ⟨?_, fun _ _ => rfl, fun _ _ => rfl, fun _ _ _ => rfl,
    fun _ _ _ _ => rfl, fun _ _ _ => rfl⟩
  intro to_addr subject body cc bcc envOv osEnv e
  cases hg : get_google_client envOv osEnv with
  | error e2 =>
    right
    unfold send_mail
    rw [hg, get_google_client_error_eq envOv osEnv e2 hg]
  | ok g =>
    left
    unfold send_mail
    rw [hg]
    rfl

/-- C1 counterexample: get_latest_message called with an override map
missing the credential keys propagates the RuntimeError from
get_google_client instead of returning an error envelope. -/
theorem handler_propagates_cex :
    get_latest_message (some []) (fun _ => none) benignOracle
      = .error (.runtimeError credErrMsg) := rfl

/-- The extraction loop computes: first successful decode wins; else
the empty string if some attempt failed; else the accumulator. -/
theorem extractFromParts_spec (ps : List GPart) (acc : Option String) :
    extractFromParts ps acc
      = match firstPlainSuccess ps with
        | some s => some s
        | none => if anyFailedAttempt ps then some "" else acc := by
  induction ps generalizing acc with
  | nil => rfl
  | cons p rest ih =>
    by_cases hm : p.mimeType = some "text/plain"
    · cases hd : p.data with
      | none =>
        have hpa : partAttempted p = false := by simp [partAttempted, hm, hd]
        rw [extractFromParts]
        simp only [hm, if_true, hd]
        rw [ih, firstPlainSuccess]
        simp [hpa, anyFailedAttempt]
      | some d =>
        by_cases hde : d = ""
        · have hpa : partAttempted p = false := by
            simp [partAttempted, hm, hd, hde]
          rw [extractFromParts]
          simp only [hm, if_true, hd, hde, ite_not, if_true]
          rw [ih, firstPlainSuccess]
          simp [hpa, anyFailedAttempt]
        · have hpa : partAttempted p = true := by
            simp [partAttempted, hm, hd, hde]
          cases hdec : _b64url_decode d.data with
          | some raw =>
            have hpd : partDecode p = some (String.mk (utf8DecodeReplace raw)) := by
              simp [partDecode, hd, hdec]
            rw [extractFromParts]
            simp only [hm, if_true, hd, hde, ite_not, if_false, hdec]
            rw [firstPlainSuccess]
            simp [hpa, hpd]
          | none =>
            have hpd : partDecode p = none := by simp [partDecode, hd, hdec]
            rw [extractFromParts]
            simp only [hm, if_true, hd, hde, ite_not, if_false, hdec]
            rw [ih, firstPlainSuccess]
            simp only [hpa, if_true, hpd]
            have hfa : anyFailedAttempt (p :: rest) = true := by
              simp [anyFailedAttempt, hpa, hpd]
            rw [hfa]
            cases firstPlainSuccess rest with
            | some s => simp
            | none => simp
    · have hpa : partAttempted p = false := by simp [partAttempted, hm]
      rw [extractFromParts]
      simp only [hm, if_false]
      rw [ih, firstPlainSuccess]
      simp [hpa, anyFailedAttempt]

/-- C8 as amended: the body field equals the spec-side extraction in
which the first text/plain part with truthy, successfully decoding data
wins, an all-attempts-failed scan yields the empty string, and
otherwise the top-level data (or none) is used. -/
theorem extract_body_amended (payload : GPayload) :
    extractBody payload = bodySpec payload := by
  unfold extractBody bodySpec
  by_cases hp : partsTruthy payload.parts
  · simp only [hp, if_true]
    rw [extractFromParts_spec]
  · simp [hp]

/-- C8 counterexample: the first text/plain part's data fails base64
decoding, yet the body is the second part's decode, not the empty
string the claim prescribes for a first-part failure. -/
theorem extract_body_first_part_cex :
    _b64url_decode ("A".data) = none
    ∧ extractBody cexPayload = some "hi"
    ∧ (some "hi" : Option String) ≠ some "" :=
  ⟨rfl, rfl, by decide⟩
